import Mathlib

/-!
Verification of `projection/schedule/continuous.go`: the continuous projection
schedule of the `goes` event-sourcing library. We shallowly embed the
configuration surface (`Continuously`, `Debounce`, `DebounceCap`,
`computeDebounceCap`), the debounce engine of `handleEvents` (`clearDebounce`,
`createJob`, `addEvent`) as pure state transformers over an explicit engine
state, a trace semantics for the engine, and the channel-operation footprint of
`Subscribe` and its worker tasks.

Go's `time.Duration` is an `int64` count of nanoseconds; we model durations as
`Int` (all constants involved are far below the overflow range, and no claim
exercises arithmetic near `2^63`). Events are modelled by their occurrence time
(an `Int` timestamp) plus a name, which is all the schedule inspects.
-/

namespace Schedule

/-- Go `time.Duration`: int64 nanoseconds. -/
abbrev Duration := Int

/-- One nanosecond-denominated millisecond, as in Go's `time.Millisecond`. -/
def millisecond : Duration := 1000000

/-- One nanosecond-denominated second, as in Go's `time.Second`. -/
def second : Duration := 1000000000

/-- `defaultDebounceBarrier = 2500 * time.Millisecond` (continuous.go line 20). -/
def defaultDebounceBarrier : Duration := 2500 * millisecond

/-- `DefaultDebounceCap = 5 * time.Second` (continuous.go line 28). -/
def DefaultDebounceCap : Duration := 5 * second

/-- The configuration fields of the `Continuous` struct that the debounce
engine reads (continuous.go lines 40-47). The embedded `schedule`, the bus and
the event names do not influence the claims about the debounce engine. -/
structure Continuous where
  debounce : Duration
  debounceCap : Duration
  debounceCapManuallySet : Bool
deriving Repr, DecidableEq

/-- `ContinuousOption` values produced by the two public option constructors
(continuous.go lines 71-91). `Debounce d` is the closure returned by
`Debounce(d)`; `DebounceCap d` the one returned by `DebounceCap(cap)`. -/
inductive ContinuousOption where
  | Debounce (d : Duration)
  | DebounceCap (c : Duration)
deriving Repr, DecidableEq

/-- Applying one option closure to the configuration: `Debounce(d)` assigns
only `c.debounce`; `DebounceCap(cap)` assigns `c.debounceCap` and sets
`c.debounceCapManuallySet` (continuous.go lines 71-91). -/
def applyOption (c : Continuous) : ContinuousOption → Continuous
  | .Debounce d => { c with debounce := d }
  | .DebounceCap cp => { c with debounceCap := cp, debounceCapManuallySet := true }

/-- `Continuously` (continuous.go lines 106-117): the struct literal leaves
`debounce` at its zero value `0` and `debounceCapManuallySet` at `false`, sets
`debounceCap := DefaultDebounceCap`, then applies the options in order. -/
def Continuously (opts : List ContinuousOption) : Continuous :=
  opts.foldl applyOption
    { debounce := 0, debounceCap := DefaultDebounceCap, debounceCapManuallySet := false }

/-- `(*Continuous).computeDebounceCap` (continuous.go lines 282-296). -/
def computeDebounceCap (s : Continuous) : Duration :=
  if s.debounceCap ≤ 0 then 0
  else if s.debounceCapManuallySet then s.debounceCap
  else if s.debounce ≤ defaultDebounceBarrier then s.debounceCap
  else s.debounce * 2

/-- An event as the schedule observes it: `event.Event` exposes a name and an
occurrence time (`evt.Time()`); the schedule inspects nothing else. The time is
an integer timestamp (nanoseconds). -/
structure Event where
  name : String
  time : Int
deriving Repr, DecidableEq

/-- Modelled from the spec: the projection Job wraps an ephemeral event store
(`eventstore.New(events...)`) built from the snapshot, together with the query
`query.New(query.SortBy(event.SortTime, event.SortAsc))` (continuous.go lines
243-248). The `eventstore` and `query` packages are not under `src/`; per the
spec, querying the store with this sort specification yields the stored events
"sorted ascending by occurrence time" (§4.3, §5). -/
structure Job where
  store : List Event
deriving Repr, DecidableEq

/-- Modelled from the spec: ascending-by-occurrence-time ordering of a batch,
the effect of the `SortBy(SortTime, SortAsc)` query on the ephemeral store. -/
def sortedByTime (l : List Event) : List Event :=
  l.mergeSort (fun a b => decide (a.time ≤ b.time))

/-- The event sequence a consumer of the Job reads: the snapshot sorted
ascending by occurrence time (spec §4.3/§5; the sort itself lives in the
`query`/`eventstore` packages outside `src/`). -/
def Job.queriedEvents (j : Job) : List Event :=
  sortedByTime j.store

/-- The mutable state of the debounce engine in `handleEvents` (continuous.go
lines 206-209): the event buffer `buf`, the two timer variables (a timer handle
is `nil` or armed for a duration; we record the arming duration), and the
`jobCreated` flag. The `sync.Mutex` serializes access; we model the locked
sections as atomic state transformations. -/
structure EngineState where
  buf : List Event
  debounceTimer : Option Duration
  capTimer : Option Duration
  jobCreated : Bool
deriving Repr, DecidableEq

/-- The engine state at subscription start: empty buffer, both timer variables
nil, flag false (Go zero values, continuous.go lines 206-209). -/
def engineInit : EngineState :=
  { buf := [], debounceTimer := none, capTimer := none, jobCreated := false }

/-- `clearDebounce` (continuous.go lines 211-226): under the lock, reset
`jobCreated`, stop and nil both timers. -/
def clearDebounce (s : EngineState) : EngineState :=
  { s with jobCreated := false, debounceTimer := none, capTimer := none }

/-- The outcome of one `createJob` (or `addEvent`) invocation: the state it
leaves behind, the Job it constructed (`none` on the early-return path), and
whether the `jobs <- job` send completed (`false` when no Job was constructed
or when the `select` took the `<-ctx.Done()` branch instead). -/
structure CreateResult where
  state : EngineState
  job : Option Job
  sent : Bool
deriving Repr, DecidableEq

/-- The locked body of `createJob` (continuous.go lines 233-257), i.e.
everything between `mux.Lock()` and the deferred `clearDebounce`: early-return
if `jobCreated`; otherwise snapshot the buffer (`copy`), build the Job over the
ephemeral store with the ascending-time sort, attempt the send (`select` over
`<-ctx.Done()` and `jobs <- job`; `ctxDone` says the context was cancelled, in
which case the send aborts), then `buf = buf[:0]` and `jobCreated = true`. -/
def createJobBody (ctxDone : Bool) (s : EngineState) : CreateResult :=
  if s.jobCreated then
    { state := s, job := none, sent := false }
  else
    { state := { s with buf := [], jobCreated := true }
      job := some { store := s.buf }
      sent := !ctxDone }

/-- A complete `createJob` invocation (continuous.go lines 230-257): the locked
body followed by the deferred `clearDebounce()` (registered first, so it runs
after the mutex is released). -/
def createJob (ctxDone : Bool) (s : EngineState) : CreateResult :=
  let r := createJobBody ctxDone s
  { r with state := clearDebounce r.state }

/-- `addEvent` (continuous.go lines 259-277): run `clearDebounce`, append the
event to the buffer, then either call `createJob` synchronously (when
`schedule.debounce <= 0`) or arm the debounce timer with `time.AfterFunc` and,
when `computeDebounceCap() > 0`, the cap timer too. -/
def addEvent (cfg : Continuous) (ctxDone : Bool) (s : EngineState) (evt : Event) : CreateResult :=
  let s1 := clearDebounce s
  let s2 := { s1 with buf := s1.buf ++ [evt] }
  if cfg.debounce ≤ 0 then
    createJob ctxDone s2
  else
    let s3 := { s2 with debounceTimer := some cfg.debounce }
    let cp := computeDebounceCap cfg
    let s4 := if 0 < cp then { s3 with capTimer := some cp } else s3
    { state := s4, job := none, sent := false }

/-- The atomic steps of the debounce engine: an event received from the feed
(`streams.ForEach` invoking `addEvent`), or an armed timer's `AfterFunc`
callback firing (which runs `createJob`). A fire of a disarmed timer is a
no-op step (its callback was stopped). -/
inductive EngineAction where
  | recv (e : Event)
  | fireDebounce
  | fireCap
deriving Repr, DecidableEq

/-- One engine step. Timer callbacks run `createJob`; they only run while the
corresponding timer variable is armed (a stopped timer's callback is
suppressed; the racy not-quite-stopped callback is covered separately by the
`createJobBody` idempotency analysis). -/
def engineStep (cfg : Continuous) (ctxDone : Bool) (s : EngineState) :
    EngineAction → CreateResult
  | .recv e => addEvent cfg ctxDone s e
  | .fireDebounce =>
      if s.debounceTimer.isSome then createJob ctxDone s
      else { state := s, job := none, sent := false }
  | .fireCap =>
      if s.capTimer.isSome then createJob ctxDone s
      else { state := s, job := none, sent := false }

/-- Run the engine over a sequence of steps, collecting the Jobs created. -/
def engineRun (cfg : Continuous) (ctxDone : Bool) (s : EngineState) :
    List EngineAction → EngineState × List Job
  | [] => (s, [])
  | a :: tr =>
    let r := engineStep cfg ctxDone s a
    let rest := engineRun cfg ctxDone r.state tr
    (rest.1, r.job.toList ++ rest.2)

/-- The events received from the feed along a trace, in arrival order. -/
def recvEvents : List EngineAction → List Event
  | [] => []
  | .recv e :: tr => e :: recvEvents tr
  | .fireDebounce :: tr => recvEvents tr
  | .fireCap :: tr => recvEvents tr

/-! ### The `Subscribe` orchestrator (continuous.go lines 149-186) -/

/-- The background tasks (goroutines) `Subscribe` can start, in source order:
the trigger-cleanup task (lines 162-165, waits on `done` then
`removeTriggers`), the event task (`handleEvents`, line 176), the trigger task
(`handleTriggers`, line 177), the apply task (`applyJobs`, line 178), and the
closer (lines 180-183, `wg.Wait()` then `close(jobs)`). -/
inductive BgTask where
  | triggerCleanup
  | eventTask
  | triggerTask
  | applyTask
  | closer
deriving Repr, DecidableEq

/-- The errors `Subscribe` can return, with `fmt.Errorf("...: %w", err)`
wrapping modelled by the constructor holding the wrapped cause:
`subscribeFailed` is `"subscribe to %v events: %w"` (line 154),
`startupFailed` is `"startup: %w"` (line 169). -/
inductive SubscribeError where
  | subscribeFailed (cause : String)
  | startupFailed (cause : String)
deriving Repr, DecidableEq

/-- What `Subscribe` has done at the moment it returns: whether the returned
error-channel value is the nil channel, the returned error, and which
background tasks have been started so far. -/
structure SubscribeResult where
  errChanIsNil : Bool
  err : Option SubscribeError
  started : List BgTask
deriving Repr, DecidableEq

/-- The control flow of `Subscribe` (continuous.go lines 149-186) as a function
of its failure points: `busErr` is the error returned by `bus.Subscribe` (line
152), `startupConfigured` whether `cfg.Startup != nil` (line 167), and
`startupErr` the error of `applyStartupJob` (line 168). On bus failure it
returns `(nil, wrapped)` at once. Otherwise it allocates `out`, `jobs`,
`triggers`, `done` and starts the trigger-cleanup goroutine (lines 157-165)
before the startup check; a startup failure then returns `(nil, wrapped)` with
only that goroutine started; on success the event, trigger, apply and closer
tasks are started and `(out, nil)` is returned. -/
def Subscribe (busErr : Option String) (startupConfigured : Bool)
    (startupErr : Option String) : SubscribeResult :=
  match busErr with
  | some e => { errChanIsNil := true, err := some (.subscribeFailed e), started := [] }
  | none =>
    let started := [BgTask.triggerCleanup]
    match startupConfigured, startupErr with
    | true, some e =>
        { errChanIsNil := true, err := some (.startupFailed e), started := started }
    | _, _ =>
        { errChanIsNil := false, err := none
          started := started ++ [.eventTask, .triggerTask, .applyTask, .closer] }

/-! ### Channel-operation footprint of the running subscription

Which operations each task performs on the `out` (error) channel, the `jobs`
channel and the `done` signal, used to settle what is and is not ever closed. -/

/-- The three channels `Subscribe` allocates (continuous.go lines 157-160). -/
inductive ChanName where
  | outChan
  | jobsChan
  | doneChan
deriving Repr, DecidableEq

/-- A channel operation: a (possibly cancellation-aborted) send, or a close. -/
inductive ChanOp where
  | send (c : ChanName)
  | closeOp (c : ChanName)
deriving Repr, DecidableEq

/-- One item arriving at the event task: an event from the bus feed, an error
from the bus's error feed (handled by `fail`, lines 199-204), or a timer
callback firing. -/
inductive FeedItem where
  | evt (e : Event)
  | errItem (msg : String)
  | fireDebounce
  | fireCap
deriving Repr, DecidableEq

/-- The channel operations `handleEvents` performs while consuming the feed
(continuous.go lines 188-280): `fail` sends a feed error on `out` unless the
context is done (lines 199-204); `createJob` sends each constructed Job on
`jobs` unless the context is done (lines 250-253). Nothing in `handleEvents`
closes any channel (the deferred `clearDebounce` only touches timers). -/
def handleEventsChanOps (cfg : Continuous) (ctxDone : Bool) :
    EngineState → List FeedItem → List ChanOp
  | _, [] => []
  | s, .errItem _ :: tr =>
      (if ctxDone then [] else [ChanOp.send .outChan]) ++ handleEventsChanOps cfg ctxDone s tr
  | s, .evt e :: tr =>
      let r := addEvent cfg ctxDone s e
      (if r.sent then [ChanOp.send .jobsChan] else []) ++ handleEventsChanOps cfg ctxDone r.state tr
  | s, .fireDebounce :: tr =>
      let r := engineStep cfg ctxDone s .fireDebounce
      (if r.sent then [ChanOp.send .jobsChan] else []) ++ handleEventsChanOps cfg ctxDone r.state tr
  | s, .fireCap :: tr =>
      let r := engineStep cfg ctxDone s .fireCap
      (if r.sent then [ChanOp.send .jobsChan] else []) ++ handleEventsChanOps cfg ctxDone r.state tr

/-- Modelled from the spec: `handleTriggers` is base-schedule code not under
`src/`; per spec §4.4 the trigger task "converts manual trigger requests into
Jobs via the same Job channel". It sends on `jobs` and closes nothing. -/
def handleTriggersChanOps (numTriggerJobs : Nat) : List ChanOp :=
  List.replicate numTriggerJobs (ChanOp.send .jobsChan)

/-- Modelled from the spec: `applyJobs` is base-schedule code not under `src/`;
per spec §4.4 the apply task "consumes Jobs, invokes applyFn(job), forwards any
returned error to the error-output channel, and on completion raises the
completion signal". It sends apply errors on `out`, raises `done`, and closes
neither `out` nor `jobs`. -/
def applyJobsChanOps (numApplyErrs : Nat) : List ChanOp :=
  List.replicate numApplyErrs (ChanOp.send .outChan) ++ [ChanOp.send .doneChan]

/-- The closer goroutine (continuous.go lines 180-183): after `wg.Wait()` it
runs `close(jobs)` — the only `close` statement in the file. -/
def closerChanOps : List ChanOp := [ChanOp.closeOp .jobsChan]

/-- The trigger-cleanup goroutine (lines 162-165) receives from `done` and
calls `removeTriggers`; it performs no send and no close. -/
def triggerCleanupChanOps : List ChanOp := []

/-- All channel operations performed over the lifetime of a subscription, for
any behaviour of the feed (`tr`), the cancellation flag, and the externally
modelled trigger/apply tasks. -/
def subscribeChanOps (cfg : Continuous) (ctxDone : Bool) (tr : List FeedItem)
    (numTriggerJobs numApplyErrs : Nat) : List ChanOp :=
  triggerCleanupChanOps
    ++ handleEventsChanOps cfg ctxDone engineInit tr
    ++ handleTriggersChanOps numTriggerJobs
    ++ applyJobsChanOps numApplyErrs
    ++ closerChanOps

/-! ### Helper definitions and lemmas -/

/-- The durations passed to the `Debounce(...)` options in a list of options,
in order. -/
def debounceValues (opts : List ContinuousOption) : List Duration :=
  opts.filterMap fun o => match o with
    | .Debounce d => some d
    | .DebounceCap _ => none

/-- The durations passed to the `DebounceCap(...)` options in a list of
options, in order. -/
def capValues (opts : List ContinuousOption) : List Duration :=
  opts.filterMap fun o => match o with
    | .Debounce _ => none
    | .DebounceCap c => some c

theorem getLast?_getD_cons {α : Type} :
    ∀ (l : List α) (a x : α), ((a :: l).getLast?).getD x = l.getLast?.getD a := by
  intro l
  induction l with
  | nil => intro a x; rfl
  | cons b t ih =>
    intro a x
    rw [List.getLast?_cons_cons, ih b x, ih b a]

theorem foldl_applyOption_debounce (opts : List ContinuousOption) :
    ∀ c : Continuous,
      (opts.foldl applyOption c).debounce = (debounceValues opts).getLast?.getD c.debounce := by
  induction opts with
  | nil => intro c; simp [debounceValues]
  | cons o tl ih =>
    intro c
    cases o with
    | Debounce d =>
      simp only [List.foldl_cons, applyOption, debounceValues, List.filterMap_cons]
      rw [ih, getLast?_getD_cons]
      rfl
    | DebounceCap cp =>
      simp only [List.foldl_cons, applyOption, debounceValues, List.filterMap_cons]
      rw [ih]
      rfl

theorem foldl_applyOption_debounceCap (opts : List ContinuousOption) :
    ∀ c : Continuous,
      (opts.foldl applyOption c).debounceCap = (capValues opts).getLast?.getD c.debounceCap := by
  induction opts with
  | nil => intro c; simp [capValues]
  | cons o tl ih =>
    intro c
    cases o with
    | Debounce d =>
      simp only [List.foldl_cons, applyOption, capValues, List.filterMap_cons]
      rw [ih]
      rfl
    | DebounceCap cp =>
      simp only [List.foldl_cons, applyOption, capValues, List.filterMap_cons]
      rw [ih, getLast?_getD_cons]
      rfl

theorem foldl_applyOption_capSet (opts : List ContinuousOption) :
    ∀ c : Continuous,
      (opts.foldl applyOption c).debounceCapManuallySet
        = (c.debounceCapManuallySet || !(capValues opts).isEmpty) := by
  induction opts with
  | nil => intro c; simp [capValues]
  | cons o tl ih =>
    intro c
    cases o with
    | Debounce d =>
      simp only [List.foldl_cons, applyOption, capValues, List.filterMap_cons]
      rw [ih]
      rfl
    | DebounceCap cp =>
      simp only [List.foldl_cons, applyOption, capValues, List.filterMap_cons]
      rw [ih]
      simp

/-! ### Claims -/

/-- Claim C2, counterexample: the claim states that for every cap duration `c`
(with `c > 0` and the override flag false), `computeDebounceCap` returns the
default cap of 5s whenever the debounce duration is at most 2.5s. The code
instead returns the configured `debounceCap` field unchanged on that branch:
at debounce = 1s, cap = 7s, override = false it returns 7s, not 5s. -/
theorem computeDebounceCap_not_always_default :
    computeDebounceCap ⟨1000000000, 7000000000, false⟩ ≠ DefaultDebounceCap := by
  decide

/-- Claim C2 (amended): `computeDebounceCap` returns 0 if the cap is ≤ 0; the
cap unchanged if the override flag is set; the cap unchanged (rather than the
constant 5s — these coincide only when the cap still holds its default value
`DefaultDebounceCap = 5s`) if the debounce duration is at most the 2.5s
barrier; and twice the debounce duration otherwise. The four concrete
evaluations of the claim all hold. -/
theorem computeDebounceCap_spec :
    (∀ d c o, c ≤ 0 → computeDebounceCap ⟨d, c, o⟩ = 0)
    ∧ (∀ d c, 0 < c → computeDebounceCap ⟨d, c, true⟩ = c)
    ∧ (∀ d c, 0 < c → d ≤ defaultDebounceBarrier → computeDebounceCap ⟨d, c, false⟩ = c)
    ∧ (∀ d, d ≤ defaultDebounceBarrier →
        computeDebounceCap ⟨d, DefaultDebounceCap, false⟩ = DefaultDebounceCap)
    ∧ (∀ d c, 0 < c → defaultDebounceBarrier < d → computeDebounceCap ⟨d, c, false⟩ = d * 2)
    ∧ computeDebounceCap ⟨1000000000, 5000000000, false⟩ = 5000000000
    ∧ computeDebounceCap ⟨3000000000, 5000000000, false⟩ = 6000000000
    ∧ computeDebounceCap ⟨3000000000, 10000000000, true⟩ = 10000000000
    ∧ computeDebounceCap ⟨1000000000, 0, false⟩ = 0 := by
  refine ⟨?_, ?_, ?_, ?_, ?_, by decide, by decide, by decide, by decide⟩
  · intro d c o h
    simp [computeDebounceCap, h]
  · intro d c h
    simp [computeDebounceCap, not_le.mpr h]
  · intro d c hc hd
    simp [computeDebounceCap, not_le.mpr hc, hd]
  · intro d hd
    have : ¬ DefaultDebounceCap ≤ 0 := by decide
    simp [computeDebounceCap, this, hd]
  · intro d c hc hd
    simp [computeDebounceCap, not_le.mpr hc, not_le.mpr hd]

/-- Claim C2, witness: the amended characterisation evaluated at concrete
inputs, one per guarded clause. -/
theorem computeDebounceCap_spec_witness :
    computeDebounceCap ⟨1000000000, -3, true⟩ = 0
    ∧ computeDebounceCap ⟨1000000000, 9000000000, true⟩ = 9000000000
    ∧ computeDebounceCap ⟨2000000000, 7000000000, false⟩ = 7000000000
    ∧ computeDebounceCap ⟨2000000000, DefaultDebounceCap, false⟩ = DefaultDebounceCap
    ∧ computeDebounceCap ⟨3000000000, 7000000000, false⟩ = 6000000000 :=
  ⟨computeDebounceCap_spec.1 1000000000 (-3) true (by decide),
   computeDebounceCap_spec.2.1 1000000000 9000000000 (by decide),
   computeDebounceCap_spec.2.2.1 2000000000 7000000000 (by decide) (by decide),
   computeDebounceCap_spec.2.2.2.1 2000000000 (by decide),
   computeDebounceCap_spec.2.2.2.2.1 3000000000 7000000000 (by decide) (by decide)⟩

/-- Claim C8: `Debounce d` assigns only the `debounce` field (default 0 =
disabled when the option is absent), `DebounceCap d` assigns the cap and marks
it user-overridden, and when options are repeated the last occurrence of each
kind determines the corresponding field of the schedule built by
`Continuously`. -/
theorem options_last_write_wins :
    (∀ (c : Continuous) (d : Duration),
        applyOption c (.Debounce d) = { c with debounce := d })
    ∧ (∀ (c : Continuous) (d : Duration),
        applyOption c (.DebounceCap d)
          = { c with debounceCap := d, debounceCapManuallySet := true })
    ∧ Continuously [] = ⟨0, DefaultDebounceCap, false⟩
    ∧ (∀ opts, (Continuously opts).debounce = (debounceValues opts).getLast?.getD 0)
    ∧ (∀ opts, (Continuously opts).debounceCap = (capValues opts).getLast?.getD DefaultDebounceCap)
    ∧ (∀ opts, (Continuously opts).debounceCapManuallySet = !(capValues opts).isEmpty) := by
  refine ⟨fun c d => rfl, fun c d => rfl, rfl, ?_, ?_, ?_⟩
  · intro opts
    exact foldl_applyOption_debounce opts _
  · intro opts
    exact foldl_applyOption_debounceCap opts _
  · intro opts
    rw [Continuously, foldl_applyOption_capSet]
    simp

/-- Claim C3: when debounce is positive and the computed cap is positive,
`addEvent` leaves the engine with any previously armed debounce and cap timers
discarded and both timers armed afresh — the debounce timer for the debounce
duration and the cap timer for the computed cap — regardless of the timers'
previous state; hence the cap timer is re-armed on every incoming event and
bounds the wait from the most recent event. -/
theorem addEvent_rearms_both_timers (cfg : Continuous) (ctxDone : Bool)
    (s : EngineState) (e : Event)
    (hd : 0 < cfg.debounce) (hc : 0 < computeDebounceCap cfg) :
    addEvent cfg ctxDone s e =
      { state := { buf := s.buf ++ [e], debounceTimer := some cfg.debounce,
                   capTimer := some (computeDebounceCap cfg), jobCreated := false }
        job := none, sent := false } := by
  rw [addEvent, if_neg (not_le.mpr hd)]
  simp [clearDebounce, if_pos hc]

/-- Claim C3, witness: an event arriving while stale timers are armed re-arms
both timers for the configured durations. -/
theorem addEvent_rearms_both_timers_witness :
    addEvent ⟨1000000000, 5000000000, false⟩ false
        ⟨[⟨"a", 1⟩], some 7, some 9, true⟩ ⟨"b", 2⟩ =
      { state := { buf := [⟨"a", 1⟩, ⟨"b", 2⟩], debounceTimer := some 1000000000,
                   capTimer := some 5000000000, jobCreated := false }
        job := none, sent := false } :=
  (addEvent_rearms_both_timers ⟨1000000000, 5000000000, false⟩ false
      ⟨[⟨"a", 1⟩], some 7, some 9, true⟩ ⟨"b", 2⟩ (by decide) (by decide)).trans
    (by decide)

/-- Claim C4: starting from a state whose `jobCreated` flag is false, the first
`createJob` body constructs a Job (from the whole buffer) and raises the flag;
a second body invocation racing on the resulting state — the flag now true —
returns immediately, constructing no Job, sending nothing and leaving the
state untouched; exactly one Job is produced, the buffer is empty immediately
after the first body, and remains empty after both deferred `clearDebounce`
calls run. -/
theorem createJob_idempotent_per_batch (d1 d2 : Bool) (s : EngineState)
    (h : s.jobCreated = false) :
    (createJobBody d1 s).state.jobCreated = true
    ∧ createJobBody d2 (createJobBody d1 s).state =
        { state := (createJobBody d1 s).state, job := none, sent := false }
    ∧ (createJobBody d1 s).job = some { store := s.buf }
    ∧ (createJobBody d2 (createJobBody d1 s).state).job = none
    ∧ (createJobBody d1 s).state.buf = []
    ∧ (clearDebounce (clearDebounce (createJobBody d2 (createJobBody d1 s).state).state)).buf
        = [] := by
  simp [createJobBody, clearDebounce, h]

/-- Claim C4, witness: two racing `createJob` bodies over a one-event batch. -/
theorem createJob_idempotent_per_batch_witness :
    (createJobBody true ⟨[⟨"a", 1⟩], none, none, false⟩).state.jobCreated = true
    ∧ createJobBody false (createJobBody true ⟨[⟨"a", 1⟩], none, none, false⟩).state =
        { state := (createJobBody true ⟨[⟨"a", 1⟩], none, none, false⟩).state,
          job := none, sent := false }
    ∧ (createJobBody true ⟨[⟨"a", 1⟩], none, none, false⟩).job = some { store := [⟨"a", 1⟩] }
    ∧ (createJobBody false (createJobBody true ⟨[⟨"a", 1⟩], none, none, false⟩).state).job = none
    ∧ (createJobBody true ⟨[⟨"a", 1⟩], none, none, false⟩).state.buf = []
    ∧ (clearDebounce (clearDebounce
        (createJobBody false (createJobBody true ⟨[⟨"a", 1⟩], none, none, false⟩).state).state)).buf
        = [] :=
  createJob_idempotent_per_batch true false ⟨[⟨"a", 1⟩], none, none, false⟩ rfl

/-- Claim C5: when the flag is down, the `createJob` body snapshots the buffer
into a fresh Job whose queried event sequence is the snapshot sorted ascending
by occurrence time, attempts the channel send (which aborts exactly when the
cancellation signal has fired), and — independently of whether the send
succeeded — leaves the live buffer empty with `jobCreated` raised and the
timer handles untouched. -/
theorem createJobBody_spec (ctxDone : Bool) (s : EngineState)
    (h : s.jobCreated = false) :
    (createJobBody ctxDone s).job = some { store := s.buf }
    ∧ ((createJobBody ctxDone s).job.map Job.queriedEvents) = some (sortedByTime s.buf)
    ∧ (createJobBody ctxDone s).sent = !ctxDone
    ∧ (createJobBody ctxDone s).state = { s with buf := [], jobCreated := true } := by
  simp [createJobBody, h, Job.queriedEvents]

/-- Claim C5, witness: a cancelled invocation still resets the buffer and
raises the flag, while the send is reported aborted. -/
theorem createJobBody_spec_witness :
    (createJobBody true ⟨[⟨"a", 3⟩, ⟨"b", 1⟩], some 5, none, false⟩).job
        = some { store := [⟨"a", 3⟩, ⟨"b", 1⟩] }
    ∧ ((createJobBody true ⟨[⟨"a", 3⟩, ⟨"b", 1⟩], some 5, none, false⟩).job.map Job.queriedEvents)
        = some (sortedByTime [⟨"a", 3⟩, ⟨"b", 1⟩])
    ∧ (createJobBody true ⟨[⟨"a", 3⟩, ⟨"b", 1⟩], some 5, none, false⟩).sent = !true
    ∧ (createJobBody true ⟨[⟨"a", 3⟩, ⟨"b", 1⟩], some 5, none, false⟩).state =
        { buf := [], debounceTimer := some 5, capTimer := none, jobCreated := true } :=
  createJobBody_spec true ⟨[⟨"a", 3⟩, ⟨"b", 1⟩], some 5, none, false⟩ rfl

/-- Claim C6: with a non-positive debounce duration, `addEvent` runs
`createJob` synchronously before returning: the invocation itself emits a Job
containing the whole buffer accumulated so far plus the new event, the buffer
is left empty, and no timer is armed. -/
theorem addEvent_no_debounce (cfg : Continuous) (ctxDone : Bool)
    (s : EngineState) (e : Event) (h : cfg.debounce ≤ 0) :
    addEvent cfg ctxDone s e =
      { state := { buf := [], debounceTimer := none, capTimer := none, jobCreated := false }
        job := some { store := s.buf ++ [e] }
        sent := !ctxDone } := by
  rw [addEvent, if_pos h]
  simp [createJob, createJobBody, clearDebounce]

/-- Claim C6, witness: with debounce 0, each event yields its own Job carrying
the accumulated buffer, and no timers are armed. -/
theorem addEvent_no_debounce_witness :
    addEvent ⟨0, 5000000000, false⟩ false ⟨[⟨"a", 1⟩], none, none, false⟩ ⟨"b", 2⟩ =
      { state := { buf := [], debounceTimer := none, capTimer := none, jobCreated := false }
        job := some { store := [⟨"a", 1⟩, ⟨"b", 2⟩] }
        sent := !false } :=
  addEvent_no_debounce ⟨0, 5000000000, false⟩ false ⟨[⟨"a", 1⟩], none, none, false⟩ ⟨"b", 2⟩
    (by decide)

/-- Claim C10: after a complete `createJob` invocation — whichever path its
body took — the deferred `clearDebounce` has run last, so the `jobCreated`
flag is down and both timer handles are stopped and nil; the flag is thus
observably true only while an invocation is in progress. -/
theorem createJob_always_clears (ctxDone : Bool) (s : EngineState) :
    (createJob ctxDone s).state.jobCreated = false
    ∧ (createJob ctxDone s).state.debounceTimer = none
    ∧ (createJob ctxDone s).state.capTimer = none
    ∧ ∀ (cfg : Continuous) (e : Event),
        (addEvent cfg ctxDone s e).state.jobCreated = false := by
  refine ⟨by simp [createJob, clearDebounce], by simp [createJob, clearDebounce],
    by simp [createJob, clearDebounce], ?_⟩
  intro cfg e
  by_cases h : cfg.debounce ≤ 0
  · simp [addEvent, h, createJob, createJobBody, clearDebounce]
  · by_cases hc : 0 < computeDebounceCap cfg <;>
      simp [addEvent, h, hc, clearDebounce]

/-- The events contributed to the feed by a single engine action. -/
def actionEvents : EngineAction → List Event
  | .recv e => [e]
  | .fireDebounce => []
  | .fireCap => []

theorem recvEvents_cons (a : EngineAction) (tr : List EngineAction) :
    recvEvents (a :: tr) = actionEvents a ++ recvEvents tr := by
  cases a <;> rfl

/-- One engine step conserves events: the events inside the Job it emits (if
any) followed by the remaining buffer are exactly the previous buffer followed
by the event the step received (if any). -/
theorem engineStep_conserves (cfg : Continuous) (d : Bool) (s : EngineState)
    (a : EngineAction) :
    (((engineStep cfg d s a).job.toList.map Job.store).flatten)
        ++ (engineStep cfg d s a).state.buf
      = s.buf ++ actionEvents a := by
  cases a with
  | recv e =>
    simp only [engineStep, actionEvents, addEvent]
    by_cases h : cfg.debounce ≤ 0
    · rw [if_pos h]
      simp [createJob, createJobBody, clearDebounce]
    · rw [if_neg h]
      by_cases hc : 0 < computeDebounceCap cfg <;> simp [clearDebounce, hc]
  | fireDebounce =>
    simp only [engineStep, actionEvents]
    by_cases h : s.debounceTimer.isSome
    · rw [if_pos h]
      by_cases hj : s.jobCreated <;> simp [createJob, createJobBody, clearDebounce, hj]
    · rw [if_neg h]
      simp
  | fireCap =>
    simp only [engineStep, actionEvents]
    by_cases h : s.capTimer.isSome
    · rw [if_pos h]
      by_cases hj : s.jobCreated <;> simp [createJob, createJobBody, clearDebounce, hj]
    · rw [if_neg h]
      simp

/-- Running the engine conserves events: the emitted Jobs' stores concatenated,
followed by the final buffer, are the initial buffer followed by every event
received on the feed, in order. -/
theorem engineRun_conserves (cfg : Continuous) (d : Bool) :
    ∀ (tr : List EngineAction) (s : EngineState),
      (((engineRun cfg d s tr).2.map Job.store).flatten) ++ (engineRun cfg d s tr).1.buf
        = s.buf ++ recvEvents tr := by
  intro tr
  induction tr with
  | nil =>
    intro s
    simp [engineRun, recvEvents]
  | cons a tr ih =>
    intro s
    have hstep := engineStep_conserves cfg d s a
    simp only [engineRun, recvEvents_cons, List.map_append, List.flatten_append]
    rw [List.append_assoc, ih]
    rw [← List.append_assoc, hstep, List.append_assoc]

/-- Any Job's queried event sequence is a permutation of its stored snapshot,
sorted ascending by occurrence time. -/
theorem queriedEvents_sorted (j : Job) :
    j.queriedEvents.Perm j.store
    ∧ j.queriedEvents.Pairwise (fun a b => a.time ≤ b.time) := by
  constructor
  · exact List.mergeSort_perm j.store _
  · have hs := @List.sorted_mergeSort Event
      (fun a b : Event => decide (a.time ≤ b.time))
      (fun a b c hab hbc => by
        simp only [decide_eq_true_eq] at *
        exact le_trans hab hbc)
      (fun a b => by
        simp only [Bool.or_eq_true, decide_eq_true_eq]
        exact le_total a.time b.time)
      j.store
    exact hs.imp (fun h => by simpa using h)

/-- Claim C1: along any interleaving of received events and timer firings,
the engine emits exactly one Job per accepted Job-creation attempt, and the
emitted Jobs partition the received events in order: the Jobs' snapshots
concatenated, followed by the still-buffered remainder, are exactly the events
appended since subscription start — so each Job holds exactly the events
buffered between the previous Job creation (or start) and its own creation —
and every Job delivers its events in ascending order of occurrence time. -/
theorem engine_one_job_per_batch (cfg : Continuous) (ctxDone : Bool)
    (tr : List EngineAction) :
    (((engineRun cfg ctxDone engineInit tr).2.map Job.store).flatten)
        ++ (engineRun cfg ctxDone engineInit tr).1.buf = recvEvents tr
    ∧ ∀ j ∈ (engineRun cfg ctxDone engineInit tr).2,
        j.queriedEvents.Perm j.store
        ∧ j.queriedEvents.Pairwise (fun a b => a.time ≤ b.time) := by
  constructor
  · simpa [engineInit] using engineRun_conserves cfg ctxDone tr engineInit
  · intro j _
    exact queriedEvents_sorted j

/-- Claim C1, witness: two debounced events followed by the debounce timer
firing yield a single Job holding both events, delivered in ascending time
order even though they arrived out of order. -/
theorem engine_one_job_per_batch_witness :
    ((((engineRun ⟨1000000000, 5000000000, false⟩ false engineInit
          [.recv ⟨"a", 3⟩, .recv ⟨"b", 1⟩, .fireDebounce]).2.map Job.store).flatten)
        ++ (engineRun ⟨1000000000, 5000000000, false⟩ false engineInit
          [.recv ⟨"a", 3⟩, .recv ⟨"b", 1⟩, .fireDebounce]).1.buf
      = recvEvents [.recv ⟨"a", 3⟩, .recv ⟨"b", 1⟩, .fireDebounce])
    ∧ (Job.queriedEvents ⟨[⟨"a", 3⟩, ⟨"b", 1⟩]⟩).Perm [⟨"a", 3⟩, ⟨"b", 1⟩]
    ∧ (Job.queriedEvents ⟨[⟨"a", 3⟩, ⟨"b", 1⟩]⟩).Pairwise (fun a b => a.time ≤ b.time) := by
  have h := engine_one_job_per_batch ⟨1000000000, 5000000000, false⟩ false
    [.recv ⟨"a", 3⟩, .recv ⟨"b", 1⟩, .fireDebounce]
  have hj := h.2 ⟨[⟨"a", 3⟩, ⟨"b", 1⟩]⟩ (by decide)
  exact ⟨h.1, hj.1, hj.2⟩

/-- Claim C7, counterexample: the claim asserts that when a configured startup
Job fails, no background tasks have been started at the moment of the failing
return. In the code, the trigger-cleanup goroutine (continuous.go lines
162-165) is started before `applyStartupJob` is called, so at the failing
startup return one background task is already running. -/
theorem subscribe_startup_failure_task_started :
    (Subscribe none true (some "boom")).err = some (.startupFailed "boom")
    ∧ (Subscribe none true (some "boom")).errChanIsNil = true
    ∧ (Subscribe none true (some "boom")).started ≠ [] := by
  refine ⟨rfl, rfl, ?_⟩
  decide

/-- Claim C7 (amended): if subscribing to the event bus fails, `Subscribe`
returns immediately with a wrapped error and a nil error channel, with no
background tasks started; if a configured startup Job fails, `Subscribe`
returns immediately with a wrapped error and a nil error channel, with none of
the worker tasks (event, trigger, apply, closer) started — but the
trigger-cleanup task has already been started at that point. -/
theorem subscribe_failure_paths :
    (∀ (e : String) (sc : Bool) (se : Option String),
        Subscribe (some e) sc se =
          { errChanIsNil := true, err := some (.subscribeFailed e), started := [] })
    ∧ (∀ e : String,
        Subscribe none true (some e) =
          { errChanIsNil := true, err := some (.startupFailed e),
            started := [.triggerCleanup] }) := by
  exact ⟨fun e sc se => rfl, fun e => rfl⟩

/-- No channel operation of the event task is a close: `handleEvents` only
ever sends (feed errors on `out`, Jobs on `jobs`). -/
theorem handleEventsChanOps_no_close (cfg : Continuous) (d : Bool) :
    ∀ (tr : List FeedItem) (s : EngineState) (c : ChanName),
      ChanOp.closeOp c ∉ handleEventsChanOps cfg d s tr := by
  intro tr
  induction tr with
  | nil =>
    intro s c
    simp [handleEventsChanOps]
  | cons it tr ih =>
    intro s c
    cases it <;>
      · simp only [handleEventsChanOps, List.mem_append]
        rintro (h | h)
        · split at h <;> simp_all
        · exact ih _ c h

/-- Claim C9: over the whole lifetime of a subscription — for every behaviour
of the event feed, every cancellation state, and every activity of the
externally modelled trigger and apply tasks — the only channel ever closed is
the internal Job channel; in particular the error channel returned by
`Subscribe` is never closed, so a consumer cannot detect termination by its
closing. -/
theorem out_channel_never_closed (cfg : Continuous) (d : Bool) (tr : List FeedItem)
    (numTriggerJobs numApplyErrs : Nat) :
    (∀ c : ChanName,
        ChanOp.closeOp c ∈ subscribeChanOps cfg d tr numTriggerJobs numApplyErrs →
          c = .jobsChan)
    ∧ ChanOp.closeOp .outChan ∉ subscribeChanOps cfg d tr numTriggerJobs numApplyErrs
    ∧ ChanOp.closeOp .jobsChan ∈ subscribeChanOps cfg d tr numTriggerJobs numApplyErrs := by
  have honly : ∀ c : ChanName,
      ChanOp.closeOp c ∈ subscribeChanOps cfg d tr numTriggerJobs numApplyErrs →
        c = .jobsChan := by
    intro c hc
    simp only [subscribeChanOps, triggerCleanupChanOps, closerChanOps,
      List.nil_append, List.mem_append] at hc
    rcases hc with (((h | h) | h) | h)
    · exact absurd h (handleEventsChanOps_no_close cfg d tr engineInit c)
    · exact absurd h (by simp [handleTriggersChanOps, List.mem_replicate])
    · exact absurd h (by simp [applyJobsChanOps, List.mem_replicate])
    · simpa using h
  refine ⟨honly, ?_, ?_⟩
  · intro h
    exact absurd (honly _ h) (by simp)
  · simp [subscribeChanOps, closerChanOps]

/-- Claim C9, witness: a concrete subscription run — two events, a feed error,
a timer firing, trigger and apply activity — closes the Job channel and does
not close the error channel. -/
theorem out_channel_never_closed_witness :
    ChanOp.closeOp .outChan ∉
        subscribeChanOps ⟨1000000000, 5000000000, false⟩ false
          [.evt ⟨"a", 1⟩, .errItem "x", .evt ⟨"b", 2⟩, .fireDebounce] 2 3
    ∧ ChanOp.closeOp .jobsChan ∈
        subscribeChanOps ⟨1000000000, 5000000000, false⟩ false
          [.evt ⟨"a", 1⟩, .errItem "x", .evt ⟨"b", 2⟩, .fireDebounce] 2 3 :=
  ⟨(out_channel_never_closed ⟨1000000000, 5000000000, false⟩ false
      [.evt ⟨"a", 1⟩, .errItem "x", .evt ⟨"b", 2⟩, .fireDebounce] 2 3).2.1,
   (out_channel_never_closed ⟨1000000000, 5000000000, false⟩ false
      [.evt ⟨"a", 1⟩, .errItem "x", .evt ⟨"b", 2⟩, .fireDebounce] 2 3).2.2⟩

end Schedule
